import Mathlib

/-!
Verification of the websource-browser session core
(src/websource-browser-module.js) in a shallow embedding.

Modelling conventions:
- The sessions directory is a store mapping a session name to file content;
  file content is either a parseable session record or a corrupt file
  (JSON.parse failure in getSession).
- Times are milliseconds as natural numbers (Date.now()).
- Network effects (puppeteer.connect, control-channel ping) are oracles
  supplied by an environment structure: a function from the endpoint or
  port to success or failure.
- Mutating operations of SessionManager return the result paired with the
  new store; branches of the source that perform no write return the input
  store unchanged.
-/

namespace WebSource

/-- A parsed session record, fields as written by SessionManager.createSession
and extended by SessionDaemon.start via updateSession (controlPort, debugPort). -/
structure SessionRecord where
  name : String
  wsEndpoint : String
  pid : Nat
  headless : Bool
  created : Nat
  lastActivity : Nat
  currentUrl : Option String
  controlPort : Option Nat
  debugPort : Option Nat
  deriving DecidableEq, Repr

/-- Content of a session file: a parseable record, or a file whose JSON.parse
fails in SessionManager.getSession. -/
inductive FileContent where
  | record (r : SessionRecord)
  | corrupt
  deriving DecidableEq, Repr

/-- The sessions directory: session name to file content. -/
def Store : Type := String → Option FileContent

/-- The empty sessions directory. -/
def emptyStore : Store := fun _ => none

/-- writeFileSync on the session file of a name. -/
def writeFile (store : Store) (name : String) (c : FileContent) : Store :=
  fun m => if m = name then some c else store m

/-- removal of the session file of a name (unlinkSync). -/
def removeFile (store : Store) (name : String) : Store :=
  fun m => if m = name then none else store m

/-- SessionManager.sessionExists: existsSync on the session file. -/
def sessionExists (store : Store) (name : String) : Bool :=
  (store name).isSome

/-- SessionManager.createSession: unconditionally writes a fresh record with
currentUrl null and no controlPort or debugPort, created and lastActivity set
to the current time; returns the record data. -/
def createSession (store : Store) (name ws : String) (pid : Nat) (headless : Bool)
    (now : Nat) : SessionRecord × Store :=
  let r : SessionRecord :=
    { name := name, wsEndpoint := ws, pid := pid, headless := headless,
      created := now, lastActivity := now, currentUrl := none,
      controlPort := none, debugPort := none }
  (r, writeFile store name (.record r))

/-- SessionManager.getSession: null when the file is absent or unreadable. -/
def getSession (store : Store) (name : String) : Option SessionRecord :=
  match store name with
  | some (.record r) => some r
  | some .corrupt => none
  | none => none

/-- SessionManager.updateSession: read the record; when absent return false and
write nothing; otherwise write the record with the partial fields spread over
it (the spread is modelled as a record-transforming function) and return true. -/
def updateSession (store : Store) (name : String) (f : SessionRecord → SessionRecord) :
    Bool × Store :=
  match getSession store name with
  | none => (false, store)
  | some s => (true, writeFile store name (.record (f s)))

/-- SessionManager.updateSessionActivity: updateSession with lastActivity set
to the current time. -/
def updateSessionActivity (store : Store) (name : String) (now : Nat) : Bool × Store :=
  updateSession store name (fun r => { r with lastActivity := now })

/-- SessionManager.deleteSession: unlink the file when present and return true,
otherwise return false and change nothing. -/
def deleteSession (store : Store) (name : String) : Bool × Store :=
  if sessionExists store name then (true, removeFile store name) else (false, store)

/-- Connectivity oracle for the automation capability: whether
puppeteer.connect on a given browserWSEndpoint succeeds (the subsequent
disconnect is folded into the same outcome). -/
structure ConnEnv where
  connOk : String → Bool

/-- SessionManager.isSessionActive: read the record; absent gives false;
otherwise the probe succeeds exactly when connecting to the stored
wsEndpoint succeeds. The body performs no store write, so the store is
returned unchanged. -/
def isSessionActive (env : ConnEnv) (store : Store) (name : String) : Bool × Store :=
  match getSession store name with
  | none => (false, store)
  | some s => (env.connOk s.wsEndpoint, store)

/-! ## SessionDaemon -/

/-- SessionDaemon.timeoutMs: 15 minutes in milliseconds. -/
def timeoutMs : Nat := 15 * 60 * 1000

/-- SessionDaemon.checkInterval: the monitor fires every 60 seconds. -/
def checkIntervalMs : Nat := 60 * 1000

/-- In-memory state of a running daemon that the control handler and the
monitor timer read and write: lastActivity, and whether shutdown has been
initiated. -/
structure DaemonState where
  lastActivity : Nat
  shuttingDown : Bool
  deriving DecidableEq, Repr

/-- SessionDaemon.updateActivity: set the in-memory lastActivity to now and
refresh the persisted record through updateSessionActivity. -/
def updateActivity (now : Nat) (name : String) (st : DaemonState) (store : Store) :
    DaemonState × Store :=
  ({ st with lastActivity := now }, (updateSessionActivity store name now).2)

/-- The status object serialized by the control server on a status request.
timeUntilShutdown is Math.max(0, timeoutMs - (now - lastActivity)) computed
over the integers. -/
structure StatusObj where
  active : Bool
  lastActivity : Nat
  timeUntilShutdown : Int
  deriving DecidableEq, Repr

/-- A response written on the control socket for one data event: pong, a
status object, or nothing at all (unrecognized input). -/
inductive CtrlResponse where
  | pong
  | status (s : StatusObj)
  | noResponse
  deriving DecidableEq, Repr

/-- The trim of the received bytes (String.prototype.trim of the source):
strip whitespace from both ends. Written over the character list so that it
evaluates by kernel reduction. -/
def jsTrim (s : String) : String :=
  ⟨(((s.data.dropWhile Char.isWhitespace).reverse.dropWhile Char.isWhitespace).reverse)⟩

/-- The data handler installed by SessionDaemon.startControlServer on each
connection: trim the received bytes; on ping refresh activity and write pong;
on status write the status object; otherwise write nothing. -/
def handleControlMessage (now : Nat) (name : String) (st : DaemonState) (store : Store)
    (raw : String) : CtrlResponse × DaemonState × Store :=
  let message := jsTrim raw
  if message = "ping" then
    let (st1, store1) := updateActivity now name st store
    (.pong, st1, store1)
  else if message = "status" then
    (.status { active := true, lastActivity := st.lastActivity,
               timeUntilShutdown := max 0 ((timeoutMs : Int) - ((now : Int) - (st.lastActivity : Int))) },
     st, store)
  else (.noResponse, st, store)

/-- One connection to the control server: the same data handler stays
installed for the whole life of the connection and processes every data
event in order; the daemon itself never ends the connection. -/
def serveConnection (name : String) (st : DaemonState) (store : Store) :
    List (Nat × String) → List CtrlResponse × DaemonState × Store
  | [] => ([], st, store)
  | (now, raw) :: rest =>
    let (resp, st1, store1) := handleControlMessage now name st store raw
    let (resps, st2, store2) := serveConnection name st1 store1 rest
    (resp :: resps, st2, store2)

/-- The test of the monitor callback in SessionDaemon.startMonitoring: shut
down when idleTime = now - lastActivity strictly exceeds timeoutMs. -/
def monitorShutsDown (st : DaemonState) (now : Nat) : Bool :=
  timeoutMs < now - st.lastActivity

/-- Observable in-memory events of a running daemon: a monitor tick, or a
ping arriving on the control channel. -/
inductive DEvent where
  | tick
  | ping
  deriving DecidableEq, Repr

/-- One in-memory step of the running daemon at time now: a ping sets
lastActivity to now (updateActivity); a monitor tick initiates shutdown when
the idle time strictly exceeds timeoutMs; after shutdown has been initiated
the timer is cleared and the process exits, so nothing further happens. -/
def dstep (st : DaemonState) (now : Nat) (e : DEvent) : DaemonState :=
  if st.shuttingDown then st
  else
    match e with
    | .ping => { st with lastActivity := now }
    | .tick => if monitorShutsDown st now then { st with shuttingDown := true } else st

/-- Run the daemon over a chronological list of timed events. -/
def drun (st : DaemonState) (evs : List (Nat × DEvent)) : DaemonState :=
  evs.foldl (fun s p => dstep s p.1 p.2) st

/-- Time of the k-th monitor tick when monitoring starts at time S: setInterval
fires first one full interval after startMonitoring. -/
def tickTime (S k : Nat) : Nat :=
  S + checkIntervalMs * (k + 1)

/-- The first n monitor ticks after monitoring starts at S, as timed events. -/
def ticksUpTo (S n : Nat) : List (Nat × DEvent) :=
  (List.range n).map (fun j => (tickTime S j, DEvent.tick))

/-! ## SessionDaemon.start -/

/-- Environment of one daemon startup: the ports found, the outcome of the
fetch of the Chrome debugging endpoint (none when the fetch or its JSON
parse throws), the outcome of puppeteer.connect per endpoint, and the
outcome of the control server listen. -/
structure DaemonStartEnv where
  controlPort : Nat
  debugPort : Nat
  fetchWsEndpoint : Option String
  connectOk : String → Bool
  listenOk : Bool

/-- Outcome of SessionDaemon.start: success with the ports and endpoint, or
the step whose failure aborted startup. -/
inductive DaemonStartOutcome where
  | ok (controlPort debugPort : Nat) (ws : String)
  | fetchFailed
  | connectFailed
  | listenFailed
  deriving DecidableEq, Repr

/-- SessionDaemon.start: fetch the debugging endpoint, connect the browser,
start the control listener, start monitoring, and only then write the
session record: first createSession (which stores no controlPort), then
updateSession adding controlPort and debugPort. Besides the outcome and the
final store, the list of store states visible after each writeFileSync is
returned, so visibility of intermediate states can be stated. Any failure
aborts before any write. -/
def daemonStart (env : DaemonStartEnv) (store : Store) (name : String) (pid : Nat)
    (headless : Bool) (now : Nat) : DaemonStartOutcome × Store × List Store :=
  match env.fetchWsEndpoint with
  | none => (.fetchFailed, store, [])
  | some ws =>
    if env.connectOk ws then
      if env.listenOk then
        let store1 := (createSession store name ws pid headless now).2
        let store2 := (updateSession store1 name
          (fun r => { r with controlPort := some env.controlPort,
                             debugPort := some env.debugPort })).2
        (.ok env.controlPort env.debugPort ws, store2, [store1, store2])
      else (.listenFailed, store, [])
    else (.connectFailed, store, [])

/-! ## WebSourceBrowser (client) -/

/-- Failure of WebSourceBrowser.pingDaemon: the record is absent or its
controlPort is missing or zero (falsy), or no pong arrived before the 5
second bound (timeout, connection refused, socket error). -/
inductive PingError where
  | noControlPort
  | noResponse
  deriving DecidableEq, Repr

/-- Environment of the client: the outcome of puppeteer.connect per
browserWSEndpoint, and whether a ping on a given control port draws a pong
within the bound. -/
structure ClientEnv where
  connOk : String → Bool
  pingOk : Nat → Bool

/-- WebSourceBrowser.pingDaemon: read the record; throw when it is absent or
its controlPort is falsy; otherwise succeed exactly when a ping on that port
draws a pong within the bound. Performs no store write. -/
def pingDaemon (env : ClientEnv) (store : Store) (name : String) : Except PingError Unit :=
  match getSession store name with
  | none => .error .noControlPort
  | some s =>
    match s.controlPort with
    | none => .error .noControlPort
    | some p =>
      if p = 0 then .error .noControlPort
      else if env.pingOk p then .ok () else .error .noResponse

/-- Outcome of WebSourceBrowser.connectToSession. -/
inductive ConnectOutcome where
  | noSession
  | pingError (e : PingError)
  | stale
  | connectFailed
  | connected
  deriving DecidableEq, Repr

/-- WebSourceBrowser.connectToSession: read the record (absent: the
no-session error). Then pingDaemon; a throw from it propagates uncaught.
Then isSessionActive; when inactive delete the record and throw the
no-longer-active (stale) error. Finally puppeteer.connect; on a throw
delete the record and fail. -/
def connectToSession (env : ClientEnv) (store : Store) (name : String) :
    ConnectOutcome × Store :=
  match getSession store name with
  | none => (.noSession, store)
  | some s =>
    match pingDaemon env store name with
    | .error e => (.pingError e, store)
    | .ok _ =>
      let (active, store1) := isSessionActive ⟨env.connOk⟩ store name
      if active then
        if env.connOk s.wsEndpoint then (.connected, store1)
        else (.connectFailed, (deleteSession store1 name).2)
      else (.stale, (deleteSession store1 name).2)

/-- maxAttempts of the startSession poll loop. -/
def maxAttempts : Nat := 60

/-- The body test of one poll attempt in WebSourceBrowser.startSession:
the session file exists, parses, and carries a truthy controlPort. -/
def pollCheck (store : Store) (name : String) : Option SessionRecord :=
  if sessionExists store name then
    match getSession store name with
    | some s =>
      match s.controlPort with
      | some p => if p = 0 then none else some s
      | none => none
    | none => none
  else none

/-- The poll loop of WebSourceBrowser.startSession: sleep one second, then
inspect the store as observable at that attempt; stop at the first attempt
whose check passes; give up when fuel runs out (the start-timeout error). -/
def pollLoop (storeAt : Nat → Store) (name : String) : Nat → Nat → Option SessionRecord
  | _, 0 => none
  | attempt, fuel + 1 =>
    match pollCheck (storeAt attempt) name with
    | some s => some s
    | none => pollLoop storeAt name (attempt + 1) fuel

/-- Environment of one startSession call: the client oracles for the
pre-spawn liveness check, and the store as observed at each poll attempt
(attempt i is read after the (i+1)-th one-second sleep, while the spawned
daemon concurrently initializes). -/
structure StartEnv where
  client : ClientEnv
  storeAt : Nat → Store

/-- Outcome of WebSourceBrowser.startSession. -/
inductive StartOutcome where
  | alreadyActive
  | started (pid : Nat) (controlPort : Nat)
  | startTimeout
  deriving DecidableEq, Repr

/-- Spawn of the detached daemon process followed by the poll loop; the last
component counts the daemon processes this call spawned. -/
def spawnAndPoll (env : StartEnv) (store : Store) (name : String) :
    StartOutcome × Store × Nat :=
  match pollLoop env.storeAt name 0 maxAttempts with
  | some s => (.started s.pid (s.controlPort.getD 0), store, 1)
  | none => (.startTimeout, store, 1)

/-- WebSourceBrowser.startSession: when the record exists and the liveness
probe succeeds, throw the already-exists-and-is-active error without
spawning; when it exists but is stale, delete it first; then spawn the
daemon and poll for its record. -/
def startSession (env : StartEnv) (store : Store) (name : String) :
    StartOutcome × Store × Nat :=
  if sessionExists store name then
    if (isSessionActive ⟨env.client.connOk⟩ store name).1 then
      (.alreadyActive, store, 0)
    else
      spawnAndPoll env (deleteSession store name).2 name
  else spawnAndPoll env store name

/-! ## Sequences of SessionStore operations -/

/-- A mutating SessionStore operation (sessionExists, getSession and
listSessions read without writing). The update carries the spread of the
partial fields as a record-transforming function. -/
inductive StoreOp where
  | create (name ws : String) (pid : Nat) (headless : Bool) (now : Nat)
  | update (name : String) (f : SessionRecord → SessionRecord)
  | delete (name : String)

/-- Whether the operation is a create for the given name. -/
def StoreOp.createsName : StoreOp → String → Bool
  | .create m _ _ _ _, n => m = n
  | _, _ => false

/-- Whether the operation is a delete for the given name. -/
def StoreOp.deletesName : StoreOp → String → Bool
  | .delete m, n => m = n
  | _, _ => false

/-- Execute one mutating SessionStore operation. -/
def runOp (store : Store) : StoreOp → Store
  | .create n ws pid h now => (createSession store n ws pid h now).2
  | .update n f => (updateSession store n f).2
  | .delete n => (deleteSession store n).2

/-- Execute a sequence of mutating SessionStore operations in order. -/
def runOps (ops : List StoreOp) (store : Store) : Store :=
  ops.foldl runOp store

end WebSource

namespace WebSource

/-! ## Helper lemmas -/

theorem sessionExists_writeFile (store : Store) (n : String) (c : FileContent)
    (m : String) : sessionExists (writeFile store n c) m =
      if m = n then true else sessionExists store m := by
  unfold sessionExists writeFile
  by_cases h : m = n <;> simp [h]

theorem sessionExists_removeFile (store : Store) (n m : String) :
    sessionExists (removeFile store n) m =
      if m = n then false else sessionExists store m := by
  unfold sessionExists removeFile
  by_cases h : m = n <;> simp [h]

theorem getSession_isSome (store : Store) (n : String) (s : SessionRecord)
    (h : getSession store n = some s) : sessionExists store n = true := by
  unfold getSession at h
  unfold sessionExists
  cases hs : store n with
  | none => rw [hs] at h; exact absurd h (by simp)
  | some c => simp

theorem sessionExists_updateSession (store : Store) (n : String)
    (f : SessionRecord → SessionRecord) (m : String) :
    sessionExists (updateSession store n f).2 m = sessionExists store m := by
  unfold updateSession
  cases hg : getSession store n with
  | none => rfl
  | some s =>
    simp only [sessionExists_writeFile]
    by_cases h : m = n
    · subst h
      simp [getSession_isSome store m s hg]
    · simp [h]

theorem sessionExists_deleteSession (store : Store) (n m : String) :
    sessionExists (deleteSession store n).2 m =
      if m = n then false else sessionExists store m := by
  unfold deleteSession
  cases he : sessionExists store n with
  | true => simp [sessionExists_removeFile]
  | false =>
    by_cases h : m = n
    · subst h; simp [he]
    · simp [h]

theorem sessionExists_runOp (store : Store) (op : StoreOp) (n : String) :
    sessionExists (runOp store op) n =
      (!op.deletesName n && (op.createsName n || sessionExists store n)) := by
  cases op with
  | create m ws pid h now =>
    simp only [runOp, createSession, StoreOp.deletesName, StoreOp.createsName,
      sessionExists_writeFile]
    by_cases hmn : n = m
    · subst hmn; simp
    · have hnm : ¬m = n := fun hx => hmn hx.symm
      simp [hmn, hnm]
  | update m f =>
    simp [runOp, StoreOp.deletesName, StoreOp.createsName, sessionExists_updateSession]
  | delete m =>
    simp only [runOp, StoreOp.deletesName, StoreOp.createsName, sessionExists_deleteSession]
    by_cases hmn : n = m
    · subst hmn; simp
    · have hnm : ¬m = n := fun hx => hmn hx.symm
      simp [hmn, hnm]

theorem StoreOp.not_creates_of_deletes (op : StoreOp) (n : String)
    (h : op.deletesName n = true) : op.createsName n = false := by
  cases op <;> simp_all [StoreOp.deletesName, StoreOp.createsName]

theorem snoc_eq_snoc_iff {α : Type} (l m : List α) (a b : α) :
    l ++ [a] = m ++ [b] ↔ l = m ∧ a = b := by
  constructor
  · intro h
    have h2 := congrArg List.reverse h
    simp at h2
    exact ⟨h2.2, h2.1⟩
  · rintro ⟨rfl, rfl⟩; rfl

theorem created_since_delete_snoc (l : List StoreOp) (op : StoreOp) (n : String) :
    (∃ pre o suf, l ++ [op] = pre ++ o :: suf ∧ o.createsName n = true ∧
        ∀ o2 ∈ suf, o2.deletesName n = false) ↔
      (op.createsName n = true ∨
        ((∃ pre o suf, l = pre ++ o :: suf ∧ o.createsName n = true ∧
            ∀ o2 ∈ suf, o2.deletesName n = false) ∧ op.deletesName n = false)) := by
  constructor
  · rintro ⟨pre, o, suf, heq, hc, hd⟩
    rcases suf.eq_nil_or_concat' with rfl | ⟨suf2, b, rfl⟩
    · obtain ⟨rfl, rfl⟩ := (snoc_eq_snoc_iff l pre op o).mp heq
      exact Or.inl hc
    · have heq2 : l ++ [op] = (pre ++ o :: suf2) ++ [b] := by
        rw [heq]; simp
      obtain ⟨rfl, rfl⟩ := (snoc_eq_snoc_iff l (pre ++ o :: suf2) op b).mp heq2
      refine Or.inr ⟨⟨pre, o, suf2, rfl, hc, ?_⟩, ?_⟩
      · intro o2 ho2
        exact hd o2 (List.mem_append_left _ ho2)
      · exact hd op (List.mem_append_right _ (List.mem_singleton.mpr rfl))
  · rintro (hc | ⟨⟨pre, o, suf, rfl, hc, hd⟩, hdel⟩)
    · exact ⟨l, op, [], by simp, hc, by simp⟩
    · refine ⟨pre, o, suf ++ [op], by simp, hc, ?_⟩
      intro o2 ho2
      rcases List.mem_append.mp ho2 with h | h
      · exact hd o2 h
      · rw [List.mem_singleton.mp h]; exact hdel

/-! ## C9 -/

/-- C9: for every sequence of SessionStore operations executed from the empty
sessions directory, sessionExists is true for a name exactly when the
sequence contains a create for that name followed by no delete for that
name. -/
theorem sessionExists_iff_create_since_delete (ops : List StoreOp) (name : String) :
    sessionExists (runOps ops emptyStore) name = true ↔
      ∃ pre op suf, ops = pre ++ op :: suf ∧ op.createsName name = true ∧
        ∀ o2 ∈ suf, o2.deletesName name = false := by
  induction ops using List.reverseRecOn with
  | nil =>
    simp [runOps, sessionExists, emptyStore]
  | append_singleton l op ih =>
    have hrun : runOps (l ++ [op]) emptyStore = runOp (runOps l emptyStore) op := by
      simp [runOps, List.foldl_append]
    rw [hrun, sessionExists_runOp, created_since_delete_snoc]
    cases hdel : op.deletesName name with
    | true =>
      rw [StoreOp.not_creates_of_deletes op name hdel]
      simp
    | false =>
      cases hcr : op.createsName name with
      | true => simp
      | false => simp [ih]

/-! ## C10 -/

/-- C10: for every session name whose record is absent or unreadable
(getSession gives null), updateSession returns false and leaves the store
unchanged, and so does updateSessionActivity; an update never creates or
resurrects a record. -/
theorem updateSession_absent_noop (store : Store) (name : String)
    (f : SessionRecord → SessionRecord) (now : Nat)
    (h : getSession store name = none) :
    updateSession store name f = (false, store) ∧
      updateSessionActivity store name now = (false, store) := by
  constructor
  · unfold updateSession
    rw [h]
  · unfold updateSessionActivity updateSession
    rw [h]

/-- C10 witness: on a store holding only an unreadable file for the name s1,
getSession gives null and the update is a no-op returning false. -/
theorem updateSession_absent_noop_witness :
    updateSession (writeFile emptyStore "s1" .corrupt) "s1"
        (fun r => { r with lastActivity := 5 }) = (false, writeFile emptyStore "s1" .corrupt) ∧
      updateSessionActivity (writeFile emptyStore "s1" .corrupt) "s1" 5 =
        (false, writeFile emptyStore "s1" .corrupt) :=
  updateSession_absent_noop (writeFile emptyStore "s1" .corrupt) "s1"
    (fun r => { r with lastActivity := 5 }) 5 rfl

/-! ## C8 -/

/-- C8: the liveness probe isSessionActive returns true exactly when
connecting to the stored wsEndpoint succeeds, any failure including a
missing or unreadable record giving false, and it never mutates the session
store: the store after the probe is the store before it. -/
theorem isSessionActive_probe (env : ConnEnv) (store : Store) (name : String) :
    (isSessionActive env store name).2 = store ∧
      ((isSessionActive env store name).1 = true ↔
        ∃ s, getSession store name = some s ∧ env.connOk s.wsEndpoint = true) := by
  unfold isSessionActive
  cases hg : getSession store name with
  | none => simp
  | some s => simp

/-! ## C5 -/

/-- C5: a control request whose trimmed line is ping draws exactly pong and
refreshes lastActivity in memory and in the persisted record; a status
request draws the JSON object with active true, the current lastActivity,
and timeUntilShutdown the non-negative remainder of the 15-minute timeout
(timeout minus idle while idle is below the timeout, zero once past it);
any other input draws no response and changes nothing. -/
theorem handleControlMessage_spec (now : Nat) (name : String) (st : DaemonState)
    (store : Store) (raw : String) :
    (jsTrim raw = "ping" →
      handleControlMessage now name st store raw =
        (.pong, { st with lastActivity := now }, (updateSessionActivity store name now).2)) ∧
    (jsTrim raw = "status" →
      ∃ s : StatusObj,
        handleControlMessage now name st store raw = (.status s, st, store) ∧
        s.active = true ∧ s.lastActivity = st.lastActivity ∧
        0 ≤ s.timeUntilShutdown ∧
        ((now : Int) - st.lastActivity ≤ timeoutMs →
          s.timeUntilShutdown = (timeoutMs : Int) - ((now : Int) - st.lastActivity)) ∧
        ((timeoutMs : Int) ≤ (now : Int) - st.lastActivity →
          s.timeUntilShutdown = 0)) ∧
    (jsTrim raw ≠ "ping" → jsTrim raw ≠ "status" →
      handleControlMessage now name st store raw = (.noResponse, st, store)) := by
  refine ⟨fun hp => ?_, fun hs => ?_, fun hnp hns => ?_⟩
  · simp [handleControlMessage, updateActivity, hp]
  · refine ⟨⟨true, st.lastActivity,
        max 0 ((timeoutMs : Int) - ((now : Int) - (st.lastActivity : Int)))⟩,
      ?_, rfl, rfl, le_max_left 0 _,
      fun hle => max_eq_right (sub_nonneg.mpr hle),
      fun hge => max_eq_left (sub_nonpos.mpr hge)⟩
    simp [handleControlMessage, hs]
  · simp [handleControlMessage, hnp, hns]

/-! ## C7 -/

/-- C7 counterexample: a single control connection carrying two ping data
events draws two pong responses: the daemon serves a second request on the
same connection instead of closing it after the first. -/
theorem serveConnection_two_pings_cex :
    (serveConnection "s1" ⟨0, false⟩ emptyStore [(1000, "ping"), (2000, "ping")]).1 =
        [CtrlResponse.pong, CtrlResponse.pong] ∧
      (serveConnection "s1" ⟨0, false⟩ emptyStore [(1000, "ping"), (2000, "ping")]).1.length = 2 := by
  constructor <;> rfl

/-- C7 amended: the data handler installed on a control connection stays in
place for the whole life of the connection: every data event is processed
(the response list has one entry per event, an entry possibly being the
empty response for unrecognized input), and in particular a second ping on
the same connection is served with a second pong; the daemon never closes
the connection itself. -/
theorem serveConnection_processes_every_event (name : String) :
    (∀ (st : DaemonState) (store : Store) (events : List (Nat × String)),
      (serveConnection name st store events).1.length = events.length) ∧
    (∀ (t1 t2 : Nat) (st : DaemonState) (store : Store),
      (serveConnection name st store [(t1, "ping"), (t2, "ping")]).1 =
        [CtrlResponse.pong, CtrlResponse.pong]) := by
  have hping : ∀ (t : Nat) (st : DaemonState) (store : Store),
      handleControlMessage t name st store "ping" =
        (.pong, { st with lastActivity := t }, (updateSessionActivity store name t).2) := by
    intro t st store
    rfl
  constructor
  · intro st store events
    induction events generalizing st store with
    | nil => rfl
    | cons e rest ih =>
      simp [serveConnection, ih]
  · intro t1 t2 st store
    simp [serveConnection, hping]

/-! ## C2 -/

theorem ticksUpTo_succ (S n : Nat) :
    ticksUpTo S (n + 1) = ticksUpTo S n ++ [(tickTime S n, DEvent.tick)] := by
  simp [ticksUpTo, List.range_succ]

theorem drun_append (st : DaemonState) (l1 l2 : List (Nat × DEvent)) :
    drun st (l1 ++ l2) = drun (drun st l1) l2 := by
  simp [drun, List.foldl_append]

theorem drun_ticks_no_shutdown (T0 S k : Nat)
    (h : ∀ j < k, tickTime S j ≤ T0 + timeoutMs) :
    drun ⟨T0, false⟩ (ticksUpTo S k) = ⟨T0, false⟩ := by
  induction k with
  | zero => rfl
  | succ n ih =>
    rw [ticksUpTo_succ, drun_append, ih (fun j hj => h j (Nat.lt_succ_of_lt hj))]
    have ht := h n (Nat.lt_succ_self n)
    simp only [drun, List.foldl_cons, List.foldl_nil, dstep, monitorShutsDown]
    have hle : ¬(timeoutMs < tickTime S n - T0) := by omega
    simp [hle]

/-- C2: with lastActivity T0 and monitoring started at S no later than the
deadline T0 plus the 15-minute timeout, the run with no pings is unchanged
through every monitor tick up to the deadline and the next tick, the k-th,
initiates shutdown; that tick falls within one monitor interval after the
deadline. A ping at any time T resets lastActivity to T, after which a tick
shuts the daemon down exactly when its time exceeds T plus the timeout, so
the deadline has moved to T plus 15 minutes. -/
theorem daemon_idle_timeout_keepalive (T0 S k : Nat)
    (hS : S ≤ T0 + timeoutMs)
    (hk : k = (T0 + timeoutMs - S) / checkIntervalMs) :
    drun ⟨T0, false⟩ (ticksUpTo S k) = ⟨T0, false⟩ ∧
    (drun ⟨T0, false⟩ (ticksUpTo S (k + 1))).shuttingDown = true ∧
    T0 + timeoutMs < tickTime S k ∧
    tickTime S k ≤ T0 + timeoutMs + checkIntervalMs ∧
    (∀ T, dstep ⟨T0, false⟩ T DEvent.ping = ⟨T, false⟩) ∧
    (∀ T t, (dstep ⟨T, false⟩ t DEvent.tick).shuttingDown = true ↔ T + timeoutMs < t) := by
  subst hk
  have hT : timeoutMs = 900000 := rfl
  have hI : checkIntervalMs = 60000 := rfl
  rw [hT] at hS
  have hprefix : ∀ j < (T0 + timeoutMs - S) / checkIntervalMs,
      tickTime S j ≤ T0 + timeoutMs := by
    intro j hj
    unfold tickTime
    rw [hI, hT] at hj ⊢
    omega
  have hdead : T0 + timeoutMs < tickTime S ((T0 + timeoutMs - S) / checkIntervalMs) := by
    unfold tickTime
    rw [hI, hT]
    omega
  have hwin : tickTime S ((T0 + timeoutMs - S) / checkIntervalMs) ≤
      T0 + timeoutMs + checkIntervalMs := by
    unfold tickTime
    rw [hI, hT]
    omega
  have hpre := drun_ticks_no_shutdown T0 S ((T0 + timeoutMs - S) / checkIntervalMs) hprefix
  refine ⟨hpre, ?_, hdead, hwin, fun T => rfl, fun T t => ?_⟩
  · rw [ticksUpTo_succ, drun_append, hpre]
    simp only [drun, List.foldl_cons, List.foldl_nil, dstep, monitorShutsDown]
    have hgt : timeoutMs < tickTime S ((T0 + timeoutMs - S) / checkIntervalMs) - T0 := by
      omega
    simp [hgt]
  · simp only [dstep, monitorShutsDown]
    constructor
    · intro h
      by_contra hc
      have : ¬(timeoutMs < t - T) := by omega
      simp [this] at h
    · intro h
      have : timeoutMs < t - T := by omega
      simp [this]

/-- C2 witness: with lastActivity 0 and monitoring started at 0, the first
15 ticks leave the daemon running and the 16th, at 960000 ms, initiates
shutdown, within one interval after the 900000 ms deadline. -/
theorem daemon_idle_timeout_keepalive_witness :
    drun ⟨0, false⟩ (ticksUpTo 0 15) = ⟨0, false⟩ ∧
    (drun ⟨0, false⟩ (ticksUpTo 0 (15 + 1))).shuttingDown = true ∧
    0 + timeoutMs < tickTime 0 15 ∧
    tickTime 0 15 ≤ 0 + timeoutMs + checkIntervalMs ∧
    (∀ T, dstep ⟨0, false⟩ T DEvent.ping = ⟨T, false⟩) ∧
    (∀ T t, (dstep ⟨T, false⟩ t DEvent.tick).shuttingDown = true ↔ T + timeoutMs < t) :=
  daemon_idle_timeout_keepalive 0 0 15 (by decide) (by decide)

/-! ## C4 -/

/-- C4: when the session record exists and the liveness probe succeeds,
startSession throws the already-active error, spawns no daemon process, and
returns the store unchanged. -/
theorem startSession_alreadyActive (env : StartEnv) (store : Store) (name : String)
    (hex : sessionExists store name = true)
    (hact : (isSessionActive ⟨env.client.connOk⟩ store name).1 = true) :
    startSession env store name = (.alreadyActive, store, 0) := by
  unfold startSession
  rw [hex, hact]
  simp

/-- A record as a live daemon would have completed it, for concrete runs. -/
def sampleRecord : SessionRecord :=
  { name := "s1", wsEndpoint := "ws-s1", pid := 41, headless := true,
    created := 0, lastActivity := 0, currentUrl := none,
    controlPort := some 9321, debugPort := some 9221 }

/-- A sessions directory holding exactly the sample record under s1. -/
def sampleStore : Store :=
  writeFile emptyStore "s1" (.record sampleRecord)

/-- A client environment in which every endpoint connects and every port
answers a ping. -/
def allUpEnv : ClientEnv :=
  ⟨fun _ => true, fun _ => true⟩

/-- C4 witness: starting s1 against the sample store with a live endpoint
yields the already-active error, an unchanged store, and zero spawns. -/
theorem startSession_alreadyActive_witness :
    startSession ⟨allUpEnv, fun _ => emptyStore⟩ sampleStore "s1" =
      (.alreadyActive, sampleStore, 0) :=
  startSession_alreadyActive ⟨allUpEnv, fun _ => emptyStore⟩ sampleStore "s1" rfl rfl

/-! ## C6 -/

theorem pollLoop_eq_none_iff (storeAt : Nat → Store) (name : String) :
    ∀ (fuel a : Nat), pollLoop storeAt name a fuel = none ↔
      ∀ i < fuel, pollCheck (storeAt (a + i)) name = none := by
  intro fuel
  induction fuel with
  | zero => simp [pollLoop]
  | succ n ih =>
    intro a
    rw [pollLoop]
    cases hc : pollCheck (storeAt a) name with
    | some s =>
      simp only [reduceCtorEq, false_iff]
      intro hall
      have h0 := hall 0 (Nat.succ_pos n)
      rw [Nat.add_zero] at h0
      rw [h0] at hc
      exact absurd hc (by simp)
    | none =>
      rw [ih (a + 1)]
      constructor
      · intro hall i hi
        cases i with
        | zero => rw [Nat.add_zero]; exact hc
        | succ j =>
          have hj := hall j (Nat.lt_of_succ_lt_succ hi)
          have hidx : a + 1 + j = a + (j + 1) := by omega
          rw [hidx] at hj
          exact hj
      · intro hall i hi
        have hi1 := hall (i + 1) (Nat.succ_lt_succ hi)
        have hidx : a + (i + 1) = a + 1 + i := by omega
        rw [hidx] at hi1
        exact hi1

/-- C6: when no record exists for the name, startSession spawns one daemon
and polls for the record with a truthy controlPort for exactly maxAttempts
= 60 one-second attempts: the fatal start-timeout outcome occurs precisely
when every one of the first 60 observations fails the check, and a poll
success reports the pid and control port of the observed record. -/
theorem startSession_poll_bound (env : StartEnv) (store : Store) (name : String)
    (hex : sessionExists store name = false) :
    maxAttempts = 60 ∧
    (startSession env store name = (.startTimeout, store, 1) ↔
      ∀ i < maxAttempts, pollCheck (env.storeAt i) name = none) ∧
    (∀ s, pollLoop env.storeAt name 0 maxAttempts = some s →
      startSession env store name = (.started s.pid (s.controlPort.getD 0), store, 1)) := by
  have hstart : startSession env store name = spawnAndPoll env store name := by
    unfold startSession
    rw [hex]
    simp
  have hiff := pollLoop_eq_none_iff env.storeAt name maxAttempts 0
  simp only [Nat.zero_add] at hiff
  refine ⟨rfl, ?_, ?_⟩
  · rw [hstart]
    unfold spawnAndPoll
    cases hp : pollLoop env.storeAt name 0 maxAttempts with
    | none =>
      simp only [true_iff]
      rw [hp] at hiff
      exact hiff.mp rfl
    | some s =>
      simp only [Prod.mk.injEq, reduceCtorEq, false_and, false_iff]
      intro hall
      rw [hp] at hiff
      exact absurd (hiff.mpr hall) (by simp)
  · intro s hs
    rw [hstart]
    unfold spawnAndPoll
    rw [hs]

/-- C6 witness: starting against the empty directory while the daemon never
writes a record ends in the start-timeout outcome after the 60 attempts. -/
theorem startSession_poll_bound_witness :
    maxAttempts = 60 ∧
    (startSession ⟨allUpEnv, fun _ => emptyStore⟩ emptyStore "s1" =
        (.startTimeout, emptyStore, 1) ↔
      ∀ i < maxAttempts, pollCheck ((fun _ => emptyStore) i) "s1" = none) ∧
    (∀ s, pollLoop (fun _ => emptyStore) "s1" 0 maxAttempts = some s →
      startSession ⟨allUpEnv, fun _ => emptyStore⟩ emptyStore "s1" =
        (.started s.pid (s.controlPort.getD 0), emptyStore, 1)) :=
  startSession_poll_bound ⟨allUpEnv, fun _ => emptyStore⟩ emptyStore "s1" rfl

/-! ## C3 -/

/-- C3 counterexample: resolving s1 while its record exists but the ping to
the daemon fails: the raw ping error propagates instead of a stale error,
and the record is not deleted, contradicting the claimed delete-and-stale
outcome on ping failure. -/
theorem connectToSession_ping_failure_cex :
    (connectToSession ⟨fun _ => true, fun _ => false⟩ sampleStore "s1").1 =
        ConnectOutcome.pingError PingError.noResponse ∧
    (connectToSession ⟨fun _ => true, fun _ => false⟩ sampleStore "s1").1 ≠
        ConnectOutcome.stale ∧
    sessionExists (connectToSession ⟨fun _ => true, fun _ => false⟩ sampleStore "s1").2
        "s1" = true := by
  refine ⟨rfl, ?_, rfl⟩
  intro h
  exact absurd h (by decide)

/-- C3 amended: when no record exists the resolution fails with the
no-session error and changes nothing; when a record exists but the ping to
the daemon fails, the ping error itself propagates and the record is not
deleted; the record is deleted with the distinct stale error only when the
ping succeeds and the capability liveness probe then fails. -/
theorem connectToSession_spec (env : ClientEnv) (store : Store) (name : String) :
    (getSession store name = none →
      connectToSession env store name = (.noSession, store)) ∧
    (∀ e, getSession store name ≠ none → pingDaemon env store name = .error e →
      connectToSession env store name = (.pingError e, store)) ∧
    (∀ s, getSession store name = some s → pingDaemon env store name = .ok () →
      env.connOk s.wsEndpoint = false →
      connectToSession env store name = (.stale, (deleteSession store name).2) ∧
        sessionExists (deleteSession store name).2 name = false) := by
  refine ⟨fun h => ?_, fun e hne hp => ?_, fun s hg hp hc => ⟨?_, ?_⟩⟩
  · simp [connectToSession, h]
  · obtain ⟨s, hs⟩ := Option.ne_none_iff_exists'.mp hne
    simp [connectToSession, hs, hp]
  · simp [connectToSession, hg, hp, isSessionActive, hc]
  · rw [sessionExists_deleteSession]
    simp

/-! ## C1 -/

/-- A startup environment in which every step of SessionDaemon.start
succeeds. -/
def sampleDaemonEnv : DaemonStartEnv :=
  ⟨9321, 9221, some "ws-s1", fun _ => true, true⟩

/-- C1 counterexample: on a fully successful startup the record is written
twice; in the first visible state the record for the session exists but its
controlPort field is absent, so the record is not fully populated when it
first becomes visible. -/
theorem daemonStart_first_visible_incomplete_cex :
    (daemonStart sampleDaemonEnv emptyStore "s1" 41 true 5).2.2.length = 2 ∧
    sessionExists ((daemonStart sampleDaemonEnv emptyStore "s1" 41 true 5).2.2.getD 0
        emptyStore) "s1" = true ∧
    (getSession ((daemonStart sampleDaemonEnv emptyStore "s1" 41 true 5).2.2.getD 0
        emptyStore) "s1").map SessionRecord.controlPort = some none := by
  refine ⟨rfl, rfl, rfl⟩

theorem getSession_writeFile_record (store : Store) (n : String) (r : SessionRecord) :
    getSession (writeFile store n (.record r)) n = some r := by
  unfold getSession writeFile
  simp

/-- C1 amended: the session record becomes visible only after the browser
capability is connected and the control listener is running, and any
failure of a startup step aborts with no record written; but the record as
first visible is not fully populated: the first write stores it without
controlPort and debugPort, and only the immediately following second write
completes it with the valid control port. -/
theorem daemonStart_spec (env : DaemonStartEnv) (store : Store) (name : String)
    (pid : Nat) (headless : Bool) (now : Nat) :
    (env.fetchWsEndpoint = none →
      daemonStart env store name pid headless now = (.fetchFailed, store, [])) ∧
    (∀ ws, env.fetchWsEndpoint = some ws → env.connectOk ws = false →
      daemonStart env store name pid headless now = (.connectFailed, store, [])) ∧
    (∀ ws, env.fetchWsEndpoint = some ws → env.connectOk ws = true → env.listenOk = false →
      daemonStart env store name pid headless now = (.listenFailed, store, [])) ∧
    (∀ ws, env.fetchWsEndpoint = some ws → env.connectOk ws = true → env.listenOk = true →
      ∃ st1 st2,
        daemonStart env store name pid headless now =
          (.ok env.controlPort env.debugPort ws, st2, [st1, st2]) ∧
        getSession st1 name = some
          { name := name, wsEndpoint := ws, pid := pid, headless := headless,
            created := now, lastActivity := now, currentUrl := none,
            controlPort := none, debugPort := none } ∧
        getSession st2 name = some
          { name := name, wsEndpoint := ws, pid := pid, headless := headless,
            created := now, lastActivity := now, currentUrl := none,
            controlPort := some env.controlPort, debugPort := some env.debugPort }) := by
  refine ⟨fun h => ?_, fun ws hws hc => ?_, fun ws hws hc hl => ?_, fun ws hws hc hl => ?_⟩
  · simp [daemonStart, h]
  · simp [daemonStart, hws, hc]
  · simp [daemonStart, hws, hc, hl]
  · have h1 : getSession (createSession store name ws pid headless now).2 name = some
        { name := name, wsEndpoint := ws, pid := pid, headless := headless,
          created := now, lastActivity := now, currentUrl := none,
          controlPort := none, debugPort := none } := by
      simp [createSession, getSession_writeFile_record]
    refine ⟨(createSession store name ws pid headless now).2,
      (updateSession (createSession store name ws pid headless now).2 name
        (fun r => { r with controlPort := some env.controlPort,
                           debugPort := some env.debugPort })).2, ?_, h1, ?_⟩
    · simp [daemonStart, hws, hc, hl]
    · simp [updateSession, h1, getSession_writeFile_record]

end WebSource
